import Mathlib

/-!
Verification of the PocketArk client shared core: a shallow embedding of the
HTTP proxy handler, the discovery (redirector) emulator, the upgrade/tunnel
setup paths and the TLS context provisioner, with theorems about the
properties the specification states.

Header maps are modelled as association lists with lowercase header names
(hyper normalises `HeaderName`s to lowercase).  `insert` on hyper's
`HeaderMap` removes every previous value stored under the name before adding
the new one, and `remove` drops every value under the name; both are modelled
by filtering.
-/

namespace PocketArk

/-- Header map: list of (lowercase name, value) pairs. -/
abbrev Headers := List (String × String)

/-- First value stored under a header name (hyper `HeaderMap::get`). -/
def getHeader (hs : Headers) (n : String) : Option String :=
  (hs.find? (fun p => p.1 == n)).map (fun p => p.2)

/-- Remove every value stored under a header name (hyper `HeaderMap::remove`). -/
def removeHeader (hs : Headers) (n : String) : Headers :=
  hs.filter (fun p => p.1 != n)

/-- Insert a value for a header name, discarding every previous value stored
under that name (hyper `HeaderMap::insert`). -/
def insertHeader (hs : Headers) (n v : String) : Headers :=
  removeHeader hs n ++ [(n, v)]

theorem getHeader_removeHeader_self (hs : Headers) (n : String) :
    getHeader (removeHeader hs n) n = none := by
  induction hs with
  | nil => rfl
  | cons p t ih =>
    by_cases hp : p.1 = n
    · simp only [removeHeader, List.filter_cons, hp, bne_self_eq_false,
        Bool.false_eq_true, if_false]
      exact ih
    · have hpn : (p.1 != n) = true := by simp [hp]
      have hpe : (p.1 == n) = false := by simp [hp]
      simp only [removeHeader, List.filter_cons, hpn, if_true] at *
      simp only [getHeader, List.find?, hpe] at *
      exact ih

theorem getHeader_removeHeader_ne (hs : Headers) (n m : String) (h : m ≠ n) :
    getHeader (removeHeader hs n) m = getHeader hs m := by
  induction hs with
  | nil => rfl
  | cons p t ih =>
    by_cases hp : p.1 = n
    · have hpm : (p.1 == m) = false := by
        simp [hp, Ne.symm h]
      simp only [removeHeader, List.filter_cons, hp, bne_self_eq_false,
        Bool.false_eq_true, if_false]
      simpa [getHeader, List.find?, hpm, removeHeader] using ih
    · have hpn : (p.1 != n) = true := by simp [hp]
      simp only [removeHeader, List.filter_cons, hpn, if_true]
      by_cases hq : p.1 = m
      · simp [getHeader, List.find?, hq]
      · have hqm : (p.1 == m) = false := by simp [hq]
        simpa [getHeader, List.find?, hqm, removeHeader] using ih

theorem getHeader_append_of_none (hs ts : Headers) (m : String)
    (h : getHeader hs m = none) :
    getHeader (hs ++ ts) m = getHeader ts m := by
  induction hs with
  | nil => rfl
  | cons p t ih =>
    by_cases hq : p.1 = m
    · simp [getHeader, List.find?, hq] at h
    · have hqm : (p.1 == m) = false := by simp [hq]
      simp only [getHeader, List.cons_append, List.find?, hqm] at *
      exact ih h

theorem getHeader_insertHeader_self (hs : Headers) (n v : String) :
    getHeader (insertHeader hs n v) n = some v := by
  unfold insertHeader
  rw [getHeader_append_of_none _ _ _ (getHeader_removeHeader_self hs n)]
  simp [getHeader, List.find?]

theorem getHeader_append_of_some (hs ts : Headers) (m : String) (w : String)
    (h : getHeader hs m = some w) :
    getHeader (hs ++ ts) m = some w := by
  induction hs with
  | nil => simp [getHeader, List.find?] at h
  | cons p t ih =>
    by_cases hq : p.1 = m
    · have hqm : (p.1 == m) = true := by simp [hq]
      simp only [getHeader, List.cons_append, List.find?, hqm] at *
      exact h
    · have hqm : (p.1 == m) = false := by simp [hq]
      simp only [getHeader, List.cons_append, List.find?, hqm] at *
      exact ih h

theorem getHeader_insertHeader_ne (hs : Headers) (n m v : String) (h : m ≠ n) :
    getHeader (insertHeader hs n v) m = getHeader hs m := by
  unfold insertHeader
  have hrm := getHeader_removeHeader_ne hs n m h
  cases hcase : getHeader (removeHeader hs n) m with
  | some w =>
    rw [getHeader_append_of_some _ _ _ _ hcase, ← hcase, hrm]
  | none =>
    rw [getHeader_append_of_none _ _ _ hcase, ← hrm, hcase]
    simp [getHeader, List.find?, show (n == m) = false by
      simp [Ne.symm h]]

/-! ## Header values

`http::HeaderValue::from_str` accepts a string iff every byte is either the
horizontal tab or lies in the visible range 32..=126 or is an opaque byte
128..=255; at the level of unicode scalar values this is: code point 9, or
at least 32 and different from 127 (every byte of a multi-byte UTF-8
encoding is at least 128, hence valid). -/

/-- Validity of one character inside an HTTP header value. -/
def validHeaderChar (c : Char) : Bool :=
  c.toNat == 9 || (32 ≤ c.toNat && c.toNat ≠ 127)

/-- Model of `HeaderValue::from_str`: `some` of the unchanged string when every
character is valid, `none` (an error, turned into a panic by `.expect`)
otherwise. -/
def headerValueFromStr (s : String) : Option String :=
  if s.data.all validHeaderChar then some s else none

/-! ## Proxying one HTTP request (`api.rs::proxy_http_request`)

The outbound network is an oracle `network : OutboundRequest → Except Unit
RemoteResponse` standing for `reqwest::Client::execute`; the remote
response body read (`response.bytes()`) may itself fail, which the
`bodyResult` field records. -/

deriving instance DecidableEq for Except

/-- Response received from the remote Pocket Relay server. -/
structure RemoteResponse where
  status : Nat
  headers : Headers
  bodyResult : Except Unit (List Nat)
  deriving DecidableEq

/-- The outbound request handed to the shared HTTP client. -/
structure OutboundRequest where
  url : String
  method : String
  body : Option (List Nat)
  headers : Headers
  deriving DecidableEq

/-- A hyper response served back to the local client. -/
structure HResponse where
  status : Nat
  headers : Headers
  body : List Nat
  deriving DecidableEq

/-- Errors of `api.rs::ProxyError`. -/
inductive ProxyError where
  | requestFailed
  | bodyFailed
  deriving DecidableEq

/-- The header surgery at the top of `proxy_http_request`:
`headers.remove(TRANSFER_ENCODING); headers.remove(CONTENT_LENGTH)`. -/
def stripFramingHeaders (hs : Headers) : Headers :=
  removeHeader (removeHeader hs "transfer-encoding") "content-length"

/-- Embedding of `api.rs::proxy_http_request`.  Returns the outbound request it sends
(first component, for stating properties about what reaches the wire) and
the result served locally: on success a response carrying exactly the remote
status, the remote headers and the fully read remote body. -/
def proxy_http_request (network : OutboundRequest → Except Unit RemoteResponse)
    (url method : String) (body : Option (List Nat)) (headers : Headers) :
    OutboundRequest × Except ProxyError HResponse :=
  let out : OutboundRequest :=
    { url := url, method := method, body := body,
      headers := stripFramingHeaders headers }
  (out,
    match network out with
    | .error _ => .error .requestFailed
    | .ok resp =>
      match resp.bodyResult with
      | .error _ => .error .bodyFailed
      | .ok bytes => .ok { status := resp.status, headers := resp.headers, body := bytes })

/-! ## The local HTTP proxy handler (`servers/http.rs::handle`) -/

/-- One inbound request as hyper hands it to the service closure.  The body
is a stream of frames, each either a chunk of bytes or a read error;
`HttpBody::data()` yields the first element of this stream. -/
structure InboundRequest where
  pathAndQuery : Option String
  method : String
  bodyFrames : List (Except Unit (List Nat))
  headers : Headers
  deriving DecidableEq

/-- The body read `request.body_mut().data().await.transpose()`: only the FIRST body frame
is consulted; a missing frame is `none`, an errored first frame is an error. -/
def readFirstFrame (frames : List (Except Unit (List Nat))) :
    Except Unit (Option (List Nat)) :=
  match frames.head? with
  | none => .ok none
  | some (.ok b) => .ok (some b)
  | some (.error e) => .error e

/-- The whole inbound body: every successful frame concatenated (what a full
drain of the body stream would produce). -/
def entireBody (frames : List (Except Unit (List Nat))) : List Nat :=
  (frames.filterMap (fun f => f.toOption)).flatten

/-- Strip exactly one leading slash from the path-and-query when one is
present, as the handler does before joining. -/
def stripLeadingSlash (s : String) : String :=
  if s.startsWith "/" then s.drop 1 else s

/-- The header map built in `handle` (http.rs lines 134–138): clone the
inbound headers, then `insert` the session token under `x-token`. -/
def handleHeaders (inbound : Headers) (tokenValue : String) : Headers :=
  insertHeader inbound "x-token" tokenValue

/-- What `handle` produced: the response served locally, and the outbound
request sent to the remote server (`none` when no remote call was made). -/
structure HandleResult where
  response : HResponse
  outbound : Option OutboundRequest
  deriving DecidableEq

/-- A `Response::default()` with the status replaced: empty headers, empty body. -/
def statusResponse (status : Nat) : HResponse :=
  { status := status, headers := [], body := [] }

/-- Embedding of `servers/http.rs::handle`.  `join` is an oracle for `Url::join` on the
session base URL; `network` is the outbound-transport oracle.  The result
is `none` exactly when the handler panics (the `.expect("Invalid token")` on
converting the session token to a header value), and otherwise `some` of the
served response paired with the outbound request, if any was sent. -/
def handle (req : InboundRequest) (baseUrl token : String)
    (join : String → String → Except Unit String)
    (network : OutboundRequest → Except Unit RemoteResponse) :
    Option HandleResult :=
  let pathAndQuery := req.pathAndQuery.getD ""
  let pathAndQuery := stripLeadingSlash pathAndQuery
  match join baseUrl pathAndQuery with
  | .error _ => some { response := statusResponse 503, outbound := none }
  | .ok url =>
    match readFirstFrame req.bodyFrames with
    | .error _ => some { response := statusResponse 503, outbound := none }
    | .ok body =>
      match headerValueFromStr token with
      | none => none
      | some tokenValue =>
        let headers := handleHeaders req.headers tokenValue
        let sent := proxy_http_request network url req.method body headers
        match sent.2 with
        | .ok resp => some { response := resp, outbound := some sent.1 }
        | .error _ => some { response := statusResponse 500, outbound := some sent.1 }

/-! ## Substring containment

A small executable substring search used to state the discovery-body
properties. -/

/-- Whether the needle occurs at the very start of the haystack. -/
def leadsWith : List Char → List Char → Bool
  | [], _ => true
  | _ :: _, [] => false
  | a :: as, b :: bs => a == b && leadsWith as bs

/-- Whether the needle occurs contiguously somewhere in the haystack. -/
def subSearch : List Char → List Char → Bool
  | needle, [] => needle.isEmpty
  | needle, c :: rest => leadsWith needle (c :: rest) || subSearch needle rest

/-- String containment: the needle occurs contiguously in the haystack. -/
def strContains (hay needle : String) : Bool :=
  subSearch needle.data hay.data

theorem leadsWith_append (n t : List Char) : leadsWith n (n ++ t) = true := by
  induction n with
  | nil => rfl
  | cons a as ih => simp [leadsWith, ih]

theorem leadsWith_extend (n h t : List Char) (hh : leadsWith n h = true) :
    leadsWith n (h ++ t) = true := by
  induction n generalizing h with
  | nil => rfl
  | cons a as ih =>
    cases h with
    | nil => simp [leadsWith] at hh
    | cons b bs =>
      simp only [leadsWith, Bool.and_eq_true, beq_iff_eq] at hh
      simp [leadsWith, hh.1, ih bs hh.2]

theorem subSearch_nil (h : List Char) : subSearch [] h = true := by
  cases h with
  | nil => rfl
  | cons c rest => simp [subSearch, leadsWith]

theorem subSearch_append_left (n h t : List Char) (hh : subSearch n t = true) :
    subSearch n (h ++ t) = true := by
  induction h with
  | nil => exact hh
  | cons c cs ih => simp [subSearch, ih]

theorem subSearch_append_right (n h t : List Char) (hh : subSearch n h = true) :
    subSearch n (h ++ t) = true := by
  induction h with
  | nil =>
    simp only [subSearch, List.isEmpty_iff] at hh
    subst hh
    simp [subSearch_nil]
  | cons c cs ih =>
    simp only [subSearch, Bool.or_eq_true] at hh
    rcases hh with hl | hr
    · have := leadsWith_extend n (c :: cs) t hl
      simp only [List.cons_append] at this
      simp [subSearch, this]
    · simp [subSearch, ih hr]

theorem leadsWith_self (n : List Char) : leadsWith n n = true := by
  induction n with
  | nil => rfl
  | cons a as ih => simp [leadsWith, ih]

theorem subSearch_self (n : List Char) : subSearch n n = true := by
  cases n with
  | nil => rfl
  | cons a as => simp [subSearch, leadsWith_self]

theorem subSearch_middle (n pre post : List Char) :
    subSearch n (pre ++ (n ++ post)) = true :=
  subSearch_append_left _ _ _ (subSearch_append_right _ _ _ (subSearch_self n))

theorem strData_append (a b : String) : (a ++ b).data = a.data ++ b.data :=
  rfl

/-! ## Discovery emulator (`servers/redirector.rs::handle_redirect`) -/

/-- Big-endian byte assembly, `u32::from_be_bytes`. -/
def u32FromBeBytes (b0 b1 b2 b3 : Nat) : Nat :=
  ((b0 * 256 + b1) * 256 + b2) * 256 + b3

/-- An inbound request as seen by the redirector handler. -/
structure RedirectorRequest where
  method : String
  path : String
  headers : Headers
  body : List Nat
  deriving DecidableEq

/-- A redirector response: status, headers and a textual body. -/
structure RedirectResponse where
  status : Nat
  headers : Headers
  body : String
  deriving DecidableEq

/-- The literal XML template of `handle_redirect`, before the `{ip}` hole. -/
def redirectBodyPart1 : String :=
  "<?xml version=\"1.0\" encoding=\"UTF-8\"?>\n    <serverinstanceinfo>\n        <address member=\"0\">\n            <valu>\n                <hostname>localhost</hostname>\n                <ip>"

/-- The literal XML template between the `{ip}` and `{port}` holes. -/
def redirectBodyPart2 : String :=
  "</ip>\n                <port>"

/-- The literal XML template after the `{port}` hole. -/
def redirectBodyPart3 : String :=
  "</port>\n            </valu>\n        </address>\n        <secure>0</secure>\n        <trialservicename></trialservicename>\n        <defaultdnsaddress>0</defaultdnsaddress>\n    </serverinstanceinfo>"

/-- The `format!` call of `handle_redirect`: the XML template with the ip
and port rendered in decimal. -/
def redirectBody (ip port : Nat) : String :=
  redirectBodyPart1 ++ toString ip ++ redirectBodyPart2 ++ toString port ++
    redirectBodyPart3

/-- The four fixed response headers of a successful discovery answer. -/
def redirectHeaders : Headers :=
  [("x-blaze-component", "redirector"),
   ("x-blaze-command", "getServerInstance"),
   ("x-blaze-seqno", "0"),
   ("content-type", "application/xml")]

/-- Embedding of `servers/redirector.rs::handle_redirect`, parameterised by the fixed
local game-protocol port constant `BLAZE_PORT` (declared in the server
module).  Any path other than the fixed discovery path gets a 404 with an
empty body; the discovery path gets the synthetic descriptor (a fresh
`Response::new` has status 200). -/
def handle_redirect (blazePort : Nat) (req : RedirectorRequest) : RedirectResponse :=
  if req.path ≠ "/redirector/getServerInstance" then
    { status := 404, headers := [], body := "" }
  else
    let ip := u32FromBeBytes 127 0 0 1
    { status := 200, headers := redirectHeaders,
      body := redirectBody ip blazePort }

/-! ## Upgrade paths (`api.rs::create_server_stream`, `create_server_tunnel`)

`error_for_status` on a `reqwest::Response` errors exactly when the status
is a client error (400–499) or a server error (500–599).  Whether
`response.upgrade()` completes is recorded on the oracle response itself
(`upgradeResult`); a real successful upgrade negotiation hands back the raw
duplex stream, modelled as an opaque `Nat`. -/

/-- A remote response in the upgrade paths: its status and whether the
upgrade negotiation completes, handing over a stream. -/
structure UpgradeResponse where
  status : Nat
  upgradeResult : Except Unit Nat
  deriving DecidableEq

/-- The reqwest test `is_client_error() || is_server_error()`, the condition
made by `error_for_status`. -/
def errorForStatus (status : Nat) : Bool :=
  400 ≤ status && status ≤ 599

/-- Errors of `api.rs::ServerStreamError`. -/
inductive ServerStreamError where
  | requestFailed
  | serverError
  | upgradeFailure
  deriving DecidableEq

/-- Outcome of an upgrade-path call: a panic (a failed `.expect` while
converting a token into a header value), a returned error, or a produced
upgraded stream. -/
inductive StreamOutcome where
  | panicked
  | failed (e : ServerStreamError)
  | ok (u : Nat)
  deriving DecidableEq

/-- The headers of the authenticated stream upgrade request (api.rs lines
266-283): `Connection: Upgrade`, `Upgrade: blaze`, the `x-token` bearer
header, plus `x-association` exactly when an association token is present.
`none` models the panic of `.expect` on an invalid token. -/
def streamHeaders (token : String) (association : Option String) :
    Option Headers :=
  match headerValueFromStr token with
  | none => none
  | some tokenValue =>
    let base : Headers :=
      [("connection", "Upgrade"), ("upgrade", "blaze"), ("x-token", tokenValue)]
    match association with
    | none => some base
    | some assoc =>
      match headerValueFromStr assoc with
      | none => none
      | some assocValue => some (insertHeader base "x-association" assocValue)

/-- The headers of the anonymous tunnel upgrade request (api.rs lines
491-504): `Connection: Upgrade`, `Upgrade: tunnel`, no bearer header, plus
`x-association` exactly when an association token is present. -/
def tunnelHeaders (association : Option String) : Option Headers :=
  let base : Headers := [("connection", "Upgrade"), ("upgrade", "tunnel")]
  match association with
  | none => some base
  | some assoc =>
    match headerValueFromStr assoc with
    | none => none
    | some assocValue => some (insertHeader base "x-association" assocValue)

/-- Shared tail of both upgrade paths: send, `error_for_status`, `upgrade`. -/
def upgradeCall (send : Headers → Except Unit UpgradeResponse)
    (hs : Headers) : StreamOutcome :=
  match send hs with
  | .error _ => .failed .requestFailed
  | .ok resp =>
    if errorForStatus resp.status then .failed .serverError
    else
      match resp.upgradeResult with
      | .error _ => .failed .upgradeFailure
      | .ok u => .ok u

/-- Embedding of `api.rs::create_server_stream`: build the authenticated upgrade headers,
send the request to the fixed upgrade endpoint, fail on an error status,
then complete the upgrade. -/
def create_server_stream (token : String) (association : Option String)
    (send : Headers → Except Unit UpgradeResponse) : StreamOutcome :=
  match streamHeaders token association with
  | none => .panicked
  | some hs => upgradeCall send hs

/-- Embedding of `api.rs::create_server_tunnel`: build the anonymous upgrade headers,
send the request to the fixed tunnel endpoint, fail on an error status, then
complete the upgrade. -/
def create_server_tunnel (association : Option String)
    (send : Headers → Except Unit UpgradeResponse) : StreamOutcome :=
  match tunnelHeaders association with
  | none => .panicked
  | some hs => upgradeCall send hs

/-! ## TLS server context (`ssl.rs::create_ssl_context`)

The certificate/key parsing and each builder call are fallible library
operations; each outcome is an oracle boolean.  The version constant is
the openssl constant `TLS1_2_VERSION` (0x0303 = 771). -/

/-- openssl `SslVersion::TLS1_2`. -/
def TLS1_2 : Nat := 771

/-- The built server-side TLS context: what material was installed and the
configured protocol-version bounds. -/
structure SslContext where
  hasCertificate : Bool
  hasPrivateKey : Bool
  minProtoVersion : Option Nat
  maxProtoVersion : Option Nat
  deriving DecidableEq

/-- Embedding of `ssl.rs::create_ssl_context`: parse the embedded certificate (DER) and
private key (PEM), build a TLS-server context, install the material, then
pin both the minimum and the maximum protocol version to TLS 1.2.  Each
fallible library step is an oracle boolean; any failure aborts construction. -/
def create_ssl_context (certParseOk keyParseOk pkeyOk builderOk : Bool)
    (setCertOk setKeyOk setMinOk setMaxOk : Bool) : Except Unit SslContext :=
  if !certParseOk then .error () else
  if !keyParseOk then .error () else
  if !pkeyOk then .error () else
  if !builderOk then .error () else
  if !setCertOk then .error () else
  if !setKeyOk then .error () else
  if !setMinOk then .error () else
  if !setMaxOk then .error () else
  .ok { hasCertificate := true, hasPrivateKey := true,
        minProtoVersion := some TLS1_2, maxProtoVersion := some TLS1_2 }

/-! ## Helper lemmas about `handle` -/

/-- When `handle` made a remote call, the headers of the outbound request are the
inbound headers with the token inserted and the framing headers stripped,
its method is the inbound method, and its body is what the first-frame read
produced. -/
theorem handle_outbound_spec (req : InboundRequest) (baseUrl token : String)
    (join : String → String → Except Unit String)
    (network : OutboundRequest → Except Unit RemoteResponse)
    (tv : String) (hv : headerValueFromStr token = some tv)
    (r : HandleResult) (out : OutboundRequest)
    (h : handle req baseUrl token join network = some r)
    (hout : r.outbound = some out) :
    ∃ url body,
      join baseUrl (stripLeadingSlash (req.pathAndQuery.getD "")) = .ok url
      ∧ readFirstFrame req.bodyFrames = .ok body
      ∧ out = { url := url, method := req.method, body := body,
                headers := stripFramingHeaders (handleHeaders req.headers tv) } := by
  simp only [handle] at h
  cases hj : join baseUrl (stripLeadingSlash (req.pathAndQuery.getD "")) with
  | error e =>
    rw [hj] at h
    cases h
    cases hout
  | ok url =>
    rw [hj] at h
    dsimp only at h
    cases hb : readFirstFrame req.bodyFrames with
    | error e =>
      rw [hb] at h
      cases h
      cases hout
    | ok body =>
      rw [hb, hv] at h
      dsimp only at h
      refine ⟨url, body, rfl, rfl, ?_⟩
      cases hp : (proxy_http_request network url req.method body
          (handleHeaders req.headers tv)).2 with
      | ok resp =>
        rw [hp] at h
        cases h
        cases hout
        rfl
      | error e =>
        rw [hp] at h
        cases h
        cases hout
        rfl

/-! ## Claims -/

/-- Claim C1: the specification requires the proxy handler to fully drain
the inbound request body (all frames) into one buffer before forwarding, so
that the forwarded body equals the entire inbound body.  The code calls
`HttpBody::data()` once, reading only the FIRST frame: on a two-frame body
the outbound request carries just the first frame, which differs from the
entire inbound body — the defect §9 of the specification describes. -/
theorem C1_only_first_frame_forwarded :
    handle { pathAndQuery := some "/a", method := "POST",
             bodyFrames := [.ok [97, 98], .ok [99, 100]], headers := [] }
        "b" "tok" (fun _ _ => .ok "u") (fun _ => .ok ⟨200, [], .ok []⟩)
      = some { response := ⟨200, [], []⟩,
               outbound := some { url := "u", method := "POST",
                                  body := some [97, 98],
                                  headers := [("x-token", "tok")] } }
    ∧ entireBody [.ok [97, 98], .ok [99, 100]] = [97, 98, 99, 100]
    ∧ (some [97, 98] : Option (List Nat))
        ≠ some (entireBody [.ok [97, 98], .ok [99, 100]]) := by
  decide

/-- Claim C3: the outbound request sent by the proxy never carries a
`Transfer-Encoding` or a `Content-Length` header copied from the inbound
request — `proxy_http_request` removes both names (every value under them)
before sending, for every inbound header map. -/
theorem C3_framing_headers_stripped
    (network : OutboundRequest → Except Unit RemoteResponse)
    (url method : String) (body : Option (List Nat)) (headers : Headers) :
    getHeader (proxy_http_request network url method body headers).1.headers
        "transfer-encoding" = none
    ∧ getHeader (proxy_http_request network url method body headers).1.headers
        "content-length" = none := by
  constructor
  · show getHeader (stripFramingHeaders headers) "transfer-encoding" = none
    unfold stripFramingHeaders
    rw [getHeader_removeHeader_ne _ _ _ (by decide), getHeader_removeHeader_self]
  · show getHeader (stripFramingHeaders headers) "content-length" = none
    unfold stripFramingHeaders
    rw [getHeader_removeHeader_self]

/-- Claim C4: for every remote response received, the local response has
exactly the remote status, exactly the remote header map (nothing added or
altered) and the fully read remote body — in particular a 201 response with
two custom headers round-trips with status 201 and the identical headers. -/
theorem C4_response_copied_verbatim (url method : String)
    (body : Option (List Nat)) (headers : Headers)
    (status : Nat) (remoteHeaders : Headers) (bytes : List Nat) :
    (proxy_http_request (fun _ => .ok ⟨status, remoteHeaders, .ok bytes⟩)
        url method body headers).2
      = .ok { status := status, headers := remoteHeaders, body := bytes } :=
  rfl

/-- Claim C9: every successfully constructed TLS server context has its
minimum allowed protocol version equal to its maximum allowed protocol
version (both pinned to TLS 1.2), whatever the outcomes of the fallible
library steps were. -/
theorem C9_tls_version_pinned
    (certParseOk keyParseOk pkeyOk builderOk : Bool)
    (setCertOk setKeyOk setMinOk setMaxOk : Bool) (ctx : SslContext)
    (h : create_ssl_context certParseOk keyParseOk pkeyOk builderOk
        setCertOk setKeyOk setMinOk setMaxOk = .ok ctx) :
    ctx.minProtoVersion = ctx.maxProtoVersion
    ∧ ctx.minProtoVersion = some TLS1_2 := by
  unfold create_ssl_context at h
  repeat' split at h
  all_goals cases h
  exact ⟨rfl, rfl⟩

/-- Witness for C9: with every fallible step succeeding, construction
succeeds and the version bounds coincide at TLS 1.2. -/
theorem C9_witness :
    ({ hasCertificate := true, hasPrivateKey := true,
       minProtoVersion := some TLS1_2,
       maxProtoVersion := some TLS1_2 } : SslContext).minProtoVersion
      = ({ hasCertificate := true, hasPrivateKey := true,
           minProtoVersion := some TLS1_2,
           maxProtoVersion := some TLS1_2 } : SslContext).maxProtoVersion
    ∧ ({ hasCertificate := true, hasPrivateKey := true,
         minProtoVersion := some TLS1_2,
         maxProtoVersion := some TLS1_2 } : SslContext).minProtoVersion
      = some TLS1_2 :=
  C9_tls_version_pinned true true true true true true true true _ rfl

/-- Claim C2: the credential header on the outbound request always equals
the session bearer token — the copy step clones every inbound header and
then `insert` unconditionally overwrites `x-token`, discarding any
client-supplied value of that name, while every other inbound header is
copied unchanged; and on the request actually sent to the remote server the
`x-token` header still equals the token. -/
theorem C2_token_always_overwritten (inbound : Headers) (token : String)
    (hvalid : token.data.all validHeaderChar = true) :
    getHeader (handleHeaders inbound token) "x-token" = some token
    ∧ (∀ v, ("x-token", v) ∈ handleHeaders inbound token → v = token)
    ∧ (∀ n, n ≠ "x-token" →
        getHeader (handleHeaders inbound token) n = getHeader inbound n)
    ∧ (∀ (req : InboundRequest) (baseUrl : String)
        (join : String → String → Except Unit String)
        (network : OutboundRequest → Except Unit RemoteResponse)
        (r : HandleResult) (out : OutboundRequest),
        req.headers = inbound →
        handle req baseUrl token join network = some r →
        r.outbound = some out →
        getHeader out.headers "x-token" = some token) := by
  have hv : headerValueFromStr token = some token := by
    simp [headerValueFromStr, hvalid]
  refine ⟨getHeader_insertHeader_self inbound "x-token" token, ?_, ?_, ?_⟩
  · intro v hmem
    unfold handleHeaders insertHeader removeHeader at hmem
    rcases List.mem_append.mp hmem with hmem | hmem
    · have hcontra := (List.mem_filter.mp hmem).2
      simp at hcontra
    · simpa using hmem
  · intro n hn
    exact getHeader_insertHeader_ne inbound "x-token" n token hn
  · intro req baseUrl join network r out hh hhandle hout
    obtain ⟨url, body, -, -, hout_eq⟩ :=
      handle_outbound_spec req baseUrl token join network token hv r out hhandle hout
    subst hout_eq
    show getHeader (stripFramingHeaders (handleHeaders req.headers token)) "x-token"
      = some token
    unfold stripFramingHeaders
    rw [getHeader_removeHeader_ne _ _ _ (by decide),
      getHeader_removeHeader_ne _ _ _ (by decide)]
    exact hh ▸ getHeader_insertHeader_self inbound "x-token" token

/-- Witness for C2 at a concrete token and an inbound map that already
carries a different value under `x-token`. -/
theorem C2_witness :
    getHeader (handleHeaders [("x-token", "evil"), ("accept", "a")] "tok")
        "x-token" = some "tok"
    ∧ getHeader (handleHeaders [("x-token", "evil"), ("accept", "a")] "tok")
        "accept" = some "a" :=
  ⟨(C2_token_always_overwritten [("x-token", "evil"), ("accept", "a")] "tok"
      (by decide)).1,
   (C2_token_always_overwritten [("x-token", "evil"), ("accept", "a")] "tok"
      (by decide)).2.2.1 "accept" (by decide)⟩

/-- Claim C5: each local failure becomes the specified HTTP status instead
of a socket disconnect.  A URL-join failure yields a 503 response with no
remote call made; a transport failure of the outbound call yields a 500
response served to the local caller (the handler still returns a response —
its error type is `Infallible`). -/
theorem C5_failures_become_statuses :
    (∀ (req : InboundRequest) (baseUrl token : String)
       (join : String → String → Except Unit String)
       (network : OutboundRequest → Except Unit RemoteResponse),
       join baseUrl (stripLeadingSlash (req.pathAndQuery.getD "")) = .error () →
       handle req baseUrl token join network
         = some { response := statusResponse 503, outbound := none })
    ∧ (∀ (req : InboundRequest) (baseUrl token : String)
       (join : String → String → Except Unit String)
       (url : String) (body : Option (List Nat)),
       token.data.all validHeaderChar = true →
       join baseUrl (stripLeadingSlash (req.pathAndQuery.getD "")) = .ok url →
       readFirstFrame req.bodyFrames = .ok body →
       handle req baseUrl token join (fun _ => .error ())
         = some { response := statusResponse 500,
                  outbound := some
                    { url := url, method := req.method, body := body,
                      headers := stripFramingHeaders
                        (handleHeaders req.headers token) } }) := by
  constructor
  · intro req baseUrl token join network hj
    simp only [handle]
    rw [hj]
  · intro req baseUrl token join url body hvalid hj hb
    have hv : headerValueFromStr token = some token := by
      simp [headerValueFromStr, hvalid]
    simp only [handle]
    rw [hj]
    dsimp only
    rw [hb, hv]
    dsimp only
    rfl

/-- Witness for C5: a failing join gives the 503 with no outbound request; a
failing transport gives the 500 with the outbound request recorded. -/
theorem C5_witness :
    handle { pathAndQuery := some "/x", method := "GET", bodyFrames := [],
             headers := [] }
        "b" "tok" (fun _ _ => .error ()) (fun _ => .ok ⟨200, [], .ok []⟩)
      = some { response := statusResponse 503, outbound := none }
    ∧ handle { pathAndQuery := some "/x", method := "GET", bodyFrames := [],
               headers := [] }
        "b" "tok" (fun _ _ => .ok "u") (fun _ => .error ())
      = some { response := statusResponse 500,
               outbound := some
                 { url := "u", method := "GET", body := none,
                   headers := stripFramingHeaders (handleHeaders [] "tok") } } :=
  ⟨C5_failures_become_statuses.1 _ "b" "tok" _ _ rfl,
   C5_failures_become_statuses.2 _ "b" "tok" _ "u" none (by decide) rfl rfl⟩

/-- Claim C6: the discovery emulator answers any request whose path is not
exactly `/redirector/getServerInstance` with a 404 and an empty body,
regardless of method; a matching request gets a body containing the literal
substrings `localhost`, `2130706433` (the big-endian u32 of 127.0.0.1) and
the fixed game-protocol port, under the three fixed identification headers
and the XML content type; and the handler's output depends only on the
request path. -/
theorem C6_discovery_emulator (blazePort : Nat) :
    (∀ req : RedirectorRequest, req.path ≠ "/redirector/getServerInstance" →
       handle_redirect blazePort req = { status := 404, headers := [], body := "" })
    ∧ (∀ req : RedirectorRequest, req.path = "/redirector/getServerInstance" →
       handle_redirect blazePort req
         = { status := 200, headers := redirectHeaders,
             body := redirectBody 2130706433 blazePort }
       ∧ strContains (redirectBody 2130706433 blazePort) "localhost" = true
       ∧ strContains (redirectBody 2130706433 blazePort) "2130706433" = true
       ∧ strContains (redirectBody 2130706433 blazePort) (toString blazePort) = true
       ∧ getHeader redirectHeaders "x-blaze-component" = some "redirector"
       ∧ getHeader redirectHeaders "x-blaze-command" = some "getServerInstance"
       ∧ getHeader redirectHeaders "x-blaze-seqno" = some "0"
       ∧ getHeader redirectHeaders "content-type" = some "application/xml")
    ∧ (∀ r r' : RedirectorRequest, r.path = r'.path →
       handle_redirect blazePort r = handle_redirect blazePort r') := by
  have hbody : ∀ port : Nat, (redirectBody 2130706433 port).data
      = redirectBodyPart1.data ++ ((toString 2130706433).data
        ++ (redirectBodyPart2.data ++ ((toString port).data
        ++ redirectBodyPart3.data))) := by
    intro port
    simp only [redirectBody, strData_append, List.append_assoc]
  refine ⟨?_, ?_, ?_⟩
  · intro req hpath
    simp [handle_redirect, hpath]
  · intro req hpath
    refine ⟨by simp [handle_redirect, hpath]; rfl, ?_, ?_, ?_, ?_, ?_, ?_, ?_⟩
    · show subSearch "localhost".data (redirectBody 2130706433 blazePort).data = true
      rw [hbody]
      exact subSearch_append_right _ _ _ (by decide)
    · show subSearch "2130706433".data (redirectBody 2130706433 blazePort).data = true
      rw [hbody]
      exact subSearch_append_left _ _ _ (subSearch_append_right _ _ _ (by decide))
    · show subSearch (toString blazePort).data
        (redirectBody 2130706433 blazePort).data = true
      rw [hbody]
      exact subSearch_append_left _ _ _ (subSearch_append_left _ _ _
        (subSearch_append_left _ _ _
          (subSearch_append_right _ _ _ (subSearch_self _))))
    · decide
    · decide
    · decide
    · decide
  · intro r r' hpath
    simp only [handle_redirect, hpath]

/-- Witness for C6 at a concrete port: a wrong path yields the 404 with an
empty body; the discovery path yields the synthesized descriptor. -/
theorem C6_witness :
    handle_redirect 42127 ⟨"GET", "/other", [], []⟩
      = { status := 404, headers := [], body := "" }
    ∧ handle_redirect 42127 ⟨"POST", "/redirector/getServerInstance", [], []⟩
      = { status := 200, headers := redirectHeaders,
          body := redirectBody 2130706433 42127 }
    ∧ strContains (redirectBody 2130706433 42127) (toString 42127) = true :=
  ⟨(C6_discovery_emulator 42127).1 _ (by decide),
   ((C6_discovery_emulator 42127).2.1 ⟨"POST", "/redirector/getServerInstance",
      [], []⟩ rfl).1,
   ((C6_discovery_emulator 42127).2.1 ⟨"POST", "/redirector/getServerInstance",
      [], []⟩ rfl).2.2.2.1⟩

/-! ## Helper lemmas about the upgrade tail -/

theorem upgradeCall_serverError (send : Headers → Except Unit UpgradeResponse)
    (hs : Headers) (resp : UpgradeResponse) (hsend : send hs = .ok resp)
    (herr : errorForStatus resp.status = true) :
    upgradeCall send hs = .failed .serverError := by
  unfold upgradeCall
  rw [hsend]
  simp [herr]

theorem upgradeCall_ok_iff (send : Headers → Except Unit UpgradeResponse)
    (hs : Headers) (resp : UpgradeResponse) (u : Nat)
    (hsend : send hs = .ok resp) :
    upgradeCall send hs = .ok u
      ↔ (errorForStatus resp.status = false ∧ resp.upgradeResult = .ok u) := by
  unfold upgradeCall
  rw [hsend]
  cases herr : errorForStatus resp.status with
  | true => simp [herr]
  | false =>
    cases hur : resp.upgradeResult with
    | error e => simp [herr, hur]
    | ok w => simp [herr, hur]

/-- Claim C7 counterexample: a remote response with status 101 (Switching
Protocols, not 2xx-class) and a completing upgrade negotiation makes both
upgrade variants hand an upgraded connection to the caller — `error_for_status`
only rejects the 4xx/5xx classes — so a non-2xx status is not always a setup
failure, contradicting the claim as stated. -/
theorem C7_counterexample :
    create_server_stream "t" none (fun _ => .ok ⟨101, .ok 7⟩) = .ok 7
    ∧ create_server_tunnel none (fun _ => .ok ⟨101, .ok 7⟩) = .ok 7
    ∧ ¬(200 ≤ 101 ∧ 101 ≤ 299) := by
  decide

/-- Claim C7 (amended): for both upgrade variants, any error-class HTTP
status (4xx/5xx, what `error_for_status` rejects) is a setup failure — the
operation returns an error and the caller is never handed an upgraded
connection; and a produced connection requires a status outside the error
classes together with a completed upgrade negotiation, anything else being
failure. -/
theorem C7_error_status_is_setup_failure :
    (∀ (token : String) (assoc : Option String)
       (send : Headers → Except Unit UpgradeResponse)
       (hs : Headers) (resp : UpgradeResponse),
       streamHeaders token assoc = some hs → send hs = .ok resp →
       errorForStatus resp.status = true →
       create_server_stream token assoc send = .failed .serverError)
    ∧ (∀ (token : String) (assoc : Option String)
       (send : Headers → Except Unit UpgradeResponse)
       (hs : Headers) (resp : UpgradeResponse) (u : Nat),
       streamHeaders token assoc = some hs → send hs = .ok resp →
       (create_server_stream token assoc send = .ok u
         ↔ (errorForStatus resp.status = false ∧ resp.upgradeResult = .ok u)))
    ∧ (∀ (assoc : Option String) (send : Headers → Except Unit UpgradeResponse)
       (hs : Headers) (resp : UpgradeResponse),
       tunnelHeaders assoc = some hs → send hs = .ok resp →
       errorForStatus resp.status = true →
       create_server_tunnel assoc send = .failed .serverError)
    ∧ (∀ (assoc : Option String) (send : Headers → Except Unit UpgradeResponse)
       (hs : Headers) (resp : UpgradeResponse) (u : Nat),
       tunnelHeaders assoc = some hs → send hs = .ok resp →
       (create_server_tunnel assoc send = .ok u
         ↔ (errorForStatus resp.status = false ∧ resp.upgradeResult = .ok u))) := by
  refine ⟨?_, ?_, ?_, ?_⟩
  · intro token assoc send hs resp hh hsend herr
    unfold create_server_stream
    rw [hh]
    exact upgradeCall_serverError send hs resp hsend herr
  · intro token assoc send hs resp u hh hsend
    unfold create_server_stream
    rw [hh]
    exact upgradeCall_ok_iff send hs resp u hsend
  · intro assoc send hs resp hh hsend herr
    unfold create_server_tunnel
    rw [hh]
    exact upgradeCall_serverError send hs resp hsend herr
  · intro assoc send hs resp u hh hsend
    unfold create_server_tunnel
    rw [hh]
    exact upgradeCall_ok_iff send hs resp u hsend

/-- Witness for C7 (amended) at concrete inputs: a 500 makes both variants
fail with the server-error kind; a 101 with completing upgrade produces the
connection in accordance with the iff. -/
theorem C7_witness :
    create_server_stream "t" none (fun _ => .ok ⟨500, .error ()⟩)
      = .failed .serverError
    ∧ create_server_tunnel none (fun _ => .ok ⟨500, .error ()⟩)
      = .failed .serverError
    ∧ (create_server_stream "t" none (fun _ => .ok ⟨101, .ok 7⟩) = .ok 7
        ↔ (errorForStatus 101 = false
            ∧ (⟨101, .ok 7⟩ : UpgradeResponse).upgradeResult = .ok 7))
    ∧ (create_server_tunnel none (fun _ => .ok ⟨101, .ok 7⟩) = .ok 7
        ↔ (errorForStatus 101 = false
            ∧ (⟨101, .ok 7⟩ : UpgradeResponse).upgradeResult = .ok 7)) :=
  ⟨C7_error_status_is_setup_failure.1 "t" none _ _ ⟨500, .error ()⟩ rfl rfl rfl,
   C7_error_status_is_setup_failure.2.2.1 none _ _ ⟨500, .error ()⟩ rfl rfl rfl,
   C7_error_status_is_setup_failure.2.1 "t" none _ _ ⟨101, .ok 7⟩ 7 rfl rfl,
   C7_error_status_is_setup_failure.2.2.2 none _ _ ⟨101, .ok 7⟩ 7 rfl rfl⟩

/-- Claim C8: the authenticated stream upgrade request carries
`Connection: Upgrade`, `Upgrade: blaze`, the `x-token` bearer header and the
association header exactly when an association token is present; the
anonymous tunnel upgrade request carries `Connection: Upgrade`,
`Upgrade: tunnel`, no `x-token` header and the association header exactly
when an association token is present. -/
theorem C8_upgrade_request_headers (token assoc : String)
    (htok : token.data.all validHeaderChar = true)
    (hassoc : assoc.data.all validHeaderChar = true) :
    (∃ hs, streamHeaders token none = some hs
       ∧ getHeader hs "connection" = some "Upgrade"
       ∧ getHeader hs "upgrade" = some "blaze"
       ∧ getHeader hs "x-token" = some token
       ∧ getHeader hs "x-association" = none)
    ∧ (∃ hs, streamHeaders token (some assoc) = some hs
       ∧ getHeader hs "connection" = some "Upgrade"
       ∧ getHeader hs "upgrade" = some "blaze"
       ∧ getHeader hs "x-token" = some token
       ∧ getHeader hs "x-association" = some assoc)
    ∧ (∃ hs, tunnelHeaders none = some hs
       ∧ getHeader hs "connection" = some "Upgrade"
       ∧ getHeader hs "upgrade" = some "tunnel"
       ∧ getHeader hs "x-token" = none
       ∧ getHeader hs "x-association" = none)
    ∧ (∃ hs, tunnelHeaders (some assoc) = some hs
       ∧ getHeader hs "connection" = some "Upgrade"
       ∧ getHeader hs "upgrade" = some "tunnel"
       ∧ getHeader hs "x-token" = none
       ∧ getHeader hs "x-association" = some assoc) := by
  have hvt : headerValueFromStr token = some token := by
    simp [headerValueFromStr, htok]
  have hva : headerValueFromStr assoc = some assoc := by
    simp [headerValueFromStr, hassoc]
  refine ⟨?_, ?_, ?_, ?_⟩
  · refine ⟨[("connection", "Upgrade"), ("upgrade", "blaze"), ("x-token", token)],
      by unfold streamHeaders; rw [hvt], ?_, ?_, ?_, ?_⟩
    all_goals simp [getHeader, List.find?]
  · refine ⟨insertHeader [("connection", "Upgrade"), ("upgrade", "blaze"),
        ("x-token", token)] "x-association" assoc,
      by unfold streamHeaders; rw [hvt]; dsimp only; rw [hva], ?_, ?_, ?_, ?_⟩
    · rw [getHeader_insertHeader_ne _ _ _ _ (by decide)]
      simp [getHeader, List.find?]
    · rw [getHeader_insertHeader_ne _ _ _ _ (by decide)]
      simp [getHeader, List.find?]
    · rw [getHeader_insertHeader_ne _ _ _ _ (by decide)]
      simp [getHeader, List.find?]
    · exact getHeader_insertHeader_self _ _ _
  · refine ⟨[("connection", "Upgrade"), ("upgrade", "tunnel")],
      by unfold tunnelHeaders; rfl, ?_, ?_, ?_, ?_⟩
    all_goals simp [getHeader, List.find?]
  · refine ⟨insertHeader [("connection", "Upgrade"), ("upgrade", "tunnel")]
        "x-association" assoc,
      by unfold tunnelHeaders; dsimp only; rw [hva], ?_, ?_, ?_, ?_⟩
    · rw [getHeader_insertHeader_ne _ _ _ _ (by decide)]
      simp [getHeader, List.find?]
    · rw [getHeader_insertHeader_ne _ _ _ _ (by decide)]
      simp [getHeader, List.find?]
    · rw [getHeader_insertHeader_ne _ _ _ _ (by decide)]
      simp [getHeader, List.find?]
    · exact getHeader_insertHeader_self _ _ _

/-- Witness for C8 at a concrete token and association token. -/
theorem C8_witness :
    (∃ hs, streamHeaders "tok" none = some hs
       ∧ getHeader hs "connection" = some "Upgrade"
       ∧ getHeader hs "upgrade" = some "blaze"
       ∧ getHeader hs "x-token" = some "tok"
       ∧ getHeader hs "x-association" = none)
    ∧ (∃ hs, tunnelHeaders (some "assoc") = some hs
       ∧ getHeader hs "connection" = some "Upgrade"
       ∧ getHeader hs "upgrade" = some "tunnel"
       ∧ getHeader hs "x-token" = none
       ∧ getHeader hs "x-association" = some "assoc") :=
  ⟨(C8_upgrade_request_headers "tok" "assoc" (by decide) (by decide)).1,
   (C8_upgrade_request_headers "tok" "assoc" (by decide) (by decide)).2.2.2⟩

/-- Claim C10: converting the bearer token (and association token) into a
header value is an unchecked assertion.  For a token containing a character
invalid in header values the conversion fails late in the per-request path
as a panic aborting the task of the connection (the handler yields no response at
all) and in the upgrade path as a panicked outcome; and under the
precondition that the tokens contain only valid header characters the
failure branch is unreachable: conversion succeeds, the proxy handler never
panics and the upgrade paths never panic. -/
theorem C10_token_conversion_unchecked :
    (headerValueFromStr "bad\ntoken" = none
      ∧ handle { pathAndQuery := some "/a", method := "GET", bodyFrames := [],
                 headers := [] }
          "b" "bad\ntoken" (fun _ _ => .ok "u") (fun _ => .ok ⟨200, [], .ok []⟩)
        = none
      ∧ create_server_stream "bad\ntoken" none (fun _ => .ok ⟨200, .ok 1⟩)
        = .panicked)
    ∧ (∀ token : String, token.data.all validHeaderChar = true →
        headerValueFromStr token = some token)
    ∧ (∀ (req : InboundRequest) (baseUrl token : String)
        (join : String → String → Except Unit String)
        (network : OutboundRequest → Except Unit RemoteResponse),
        token.data.all validHeaderChar = true →
        handle req baseUrl token join network ≠ none)
    ∧ (∀ (token : String) (assoc : Option String)
        (send : Headers → Except Unit UpgradeResponse),
        token.data.all validHeaderChar = true →
        (∀ a, assoc = some a → a.data.all validHeaderChar = true) →
        create_server_stream token assoc send ≠ .panicked) := by
  refine ⟨by decide, ?_, ?_, ?_⟩
  · intro token hvalid
    simp [headerValueFromStr, hvalid]
  · intro req baseUrl token join network hvalid
    have hv : headerValueFromStr token = some token := by
      simp [headerValueFromStr, hvalid]
    simp only [handle]
    cases hj : join baseUrl (stripLeadingSlash (req.pathAndQuery.getD "")) with
    | error e => simp
    | ok url =>
      dsimp only
      cases hb : readFirstFrame req.bodyFrames with
      | error e => simp
      | ok body =>
        rw [hv]
        dsimp only
        cases hp : (proxy_http_request network url req.method body
            (handleHeaders req.headers token)).2 with
        | ok resp => simp
        | error e => simp
  · intro token assoc send hvalid hassoc
    have hv : headerValueFromStr token = some token := by
      simp [headerValueFromStr, hvalid]
    have hhs : ∃ hs, streamHeaders token assoc = some hs := by
      cases assoc with
      | none =>
        exact ⟨[("connection", "Upgrade"), ("upgrade", "blaze"),
          ("x-token", token)], by unfold streamHeaders; rw [hv]⟩
      | some a =>
        have hva : headerValueFromStr a = some a := by
          simp [headerValueFromStr, hassoc a rfl]
        exact ⟨insertHeader [("connection", "Upgrade"), ("upgrade", "blaze"),
          ("x-token", token)] "x-association" a,
          by unfold streamHeaders; rw [hv]; dsimp only; rw [hva]⟩
    obtain ⟨hs, hhs⟩ := hhs
    unfold create_server_stream
    rw [hhs]
    unfold upgradeCall
    cases hsend : send hs with
    | error e => simp [hsend]
    | ok resp =>
      cases herr : errorForStatus resp.status with
      | true => simp [hsend, herr]
      | false =>
        cases hur : resp.upgradeResult with
        | error e => simp [hsend, herr, hur]
        | ok u => simp [hsend, herr, hur]

/-- Witness for the universally quantified parts of C10 at a concrete valid
token: conversion succeeds, the handler does not panic and the upgrade path
does not panic. -/
theorem C10_witness :
    headerValueFromStr "tok" = some "tok"
    ∧ handle { pathAndQuery := some "/a", method := "GET", bodyFrames := [],
               headers := [] }
        "b" "tok" (fun _ _ => .ok "u") (fun _ => .ok ⟨200, [], .ok []⟩) ≠ none
    ∧ create_server_stream "tok" none (fun _ => .ok ⟨200, .ok 1⟩) ≠ .panicked :=
  ⟨C10_token_conversion_unchecked.2.1 "tok" (by decide),
   C10_token_conversion_unchecked.2.2.1 _ "b" "tok" _ _ (by decide),
   C10_token_conversion_unchecked.2.2.2 "tok" none _ (by decide)
     (fun a ha => by cases ha)⟩

end PocketArk
